import Mathlib

/-!
Shallow embedding of `src/immuni_analytics/core/managers.py`.

The Python class `Managers` holds four optional connection handles
(`_analytics_mongo`, `_analytics_redis`, `_authorization_ios_redis`,
`_authorization_android_redis`), four guarded property accessors that raise
`RuntimeError` when the backing handle is `None`, an async `initialize`
method that awaits the base hook and opens the connections in a fixed order,
and an async `teardown` method that awaits the base hook and closes the
present handles in a fixed order.

External collaborators (the base class hooks, `mongoengine.connect`,
`aioredis.create_redis_pool`, and the `close` / `wait_closed` methods of the
resulting handles) are modelled by an environment `Env` that decides, for
each call, whether it succeeds (and with which handle) or raises.  Handles
are modelled as natural numbers.  Each lifecycle method returns a
`RunResult`: the list of external calls it performed in order, the state of
the object after the method (mutations performed before an exception
persist, as in Python), and the exception it propagated, if any.
-/

/-- A Python exception, as observed by callers of this module: either the
`RuntimeError` raised by the guarded accessors (with its message), or an
exception propagated from an external collaborator. -/
inductive PyError where
  | runtimeError (msg : String)
  | external (msg : String)
deriving DecidableEq, Repr

deriving instance DecidableEq for Except

/-- One call to an external collaborator, in the order the Python code
performs them.  `superInit` and `superTeardown` are the awaited base-class
hooks; `connect` is `mongoengine.connect(host=...)`; `createRedisPool` is
`aioredis.create_redis_pool(address=..., encoding=...)`; `mongoClose` is
`MongoClient.close()`; `redisClose` and `waitClosed` are `Redis.close()`
and `await Redis.wait_closed()` on a pool handle. -/
inductive Call where
  | superInit
  | connect (host : String)
  | createRedisPool (address : String) (encoding : String)
  | superTeardown
  | mongoClose (h : Nat)
  | redisClose (h : Nat)
  | waitClosed (h : Nat)
deriving DecidableEq, Repr

/-- The mutable state of the `Managers` object: the four optional handles,
exactly the four class attributes of the Python class. -/
structure Managers where
  _analytics_mongo : Option Nat
  _analytics_redis : Option Nat
  _authorization_ios_redis : Option Nat
  _authorization_android_redis : Option Nat
deriving DecidableEq, Repr

/-- The module-level singleton `managers = Managers()`: all four handles
start out as `None`. -/
def managers : Managers := ⟨none, none, none, none⟩

/-- The connection URLs read from `immuni_analytics.core.config`. -/
structure Config where
  ANALYTICS_MONGO_URL : String
  ANALYTICS_BROKER_REDIS_URL : String
  CELERY_BROKER_REDIS_URL_AUTHORIZATION_IOS : String
  CELERY_BROKER_REDIS_URL_AUTHORIZATION_ANDROID : String

/-- The behaviour of the external collaborators during one run: for each
kind of external call, the result it returns (`Except.ok`) or the exception
it raises (`Except.error`). -/
structure Env where
  superInitResult : Except PyError Unit
  connectResult : String → Except PyError Nat
  createRedisPoolResult : String → String → Except PyError Nat
  superTeardownResult : Except PyError Unit
  mongoCloseResult : Nat → Except PyError Unit
  redisCloseResult : Nat → Except PyError Unit
  waitClosedResult : Nat → Except PyError Unit

/-- The observable outcome of running `initialize` or `teardown`: the
external calls performed in order, the state of the object afterwards, and
the propagated exception, if any.  In Python an exception aborts the method
but keeps the field assignments already executed, which is why a state is
returned even in the error case. -/
structure RunResult where
  trace : List Call
  state : Managers
  error : Option PyError
deriving DecidableEq, Repr

/-- The `analytics_mongo` property: raises `RuntimeError` when the backing
handle is `None`, otherwise returns it. -/
def Managers.analytics_mongo (self : Managers) : Except PyError Nat :=
  match self._analytics_mongo with
  | none => .error (.runtimeError "Cannot use MongoDB manager before initializing it.")
  | some c => .ok c

/-- The `analytics_redis` property: raises `RuntimeError` when the backing
handle is `None`, otherwise returns it. -/
def Managers.analytics_redis (self : Managers) : Except PyError Nat :=
  match self._analytics_redis with
  | none => .error (.runtimeError "Attempting to use Analytics redis before initialization")
  | some c => .ok c

/-- The `authorization_ios_redis` property: raises `RuntimeError` when the
backing handle is `None`, otherwise returns it. -/
def Managers.authorization_ios_redis (self : Managers) : Except PyError Nat :=
  match self._authorization_ios_redis with
  | none => .error (.runtimeError "Attempting to use Authorization iOS redis before initialization")
  | some c => .ok c

/-- The `authorization_android_redis` property: raises `RuntimeError` when
the backing handle is `None`, otherwise returns it. -/
def Managers.authorization_android_redis (self : Managers) : Except PyError Nat :=
  match self._authorization_android_redis with
  | none => .error (.runtimeError "Attempting to use Authorization Android redis before initialization")
  | some c => .ok c

/-- Steps 3 to 5 of `initialize`: the three awaited
`aioredis.create_redis_pool` calls, in source order (analytics broker, then
iOS authorization broker, then Android authorization broker), each assigning
its field on success and propagating its exception on failure.  `t` is the
trace accumulated by the earlier steps of `initialize`. -/
def Managers.initPools (cfg : Config) (env : Env) (self : Managers) (t : List Call) : RunResult :=
  let t1 := t ++ [Call.createRedisPool cfg.ANALYTICS_BROKER_REDIS_URL "utf-8"]
  match env.createRedisPoolResult cfg.ANALYTICS_BROKER_REDIS_URL "utf-8" with
  | .error e => ⟨t1, self, some e⟩
  | .ok h1 =>
    let s1 : Managers := { self with _analytics_redis := some h1 }
    let t2 := t1 ++ [Call.createRedisPool cfg.CELERY_BROKER_REDIS_URL_AUTHORIZATION_IOS "utf-8"]
    match env.createRedisPoolResult cfg.CELERY_BROKER_REDIS_URL_AUTHORIZATION_IOS "utf-8" with
    | .error e => ⟨t2, s1, some e⟩
    | .ok h2 =>
      let s2 : Managers := { s1 with _authorization_ios_redis := some h2 }
      let t3 := t2 ++ [Call.createRedisPool cfg.CELERY_BROKER_REDIS_URL_AUTHORIZATION_ANDROID "utf-8"]
      match env.createRedisPoolResult cfg.CELERY_BROKER_REDIS_URL_AUTHORIZATION_ANDROID "utf-8" with
      | .error e => ⟨t3, s2, some e⟩
      | .ok h3 => ⟨t3, { s2 with _authorization_android_redis := some h3 }, none⟩

/-- The `initialize` method (named `init` here).  It awaits
`super().initialize()`; then, only when `initialize_mongo` is true, calls
`connect(host=config.ANALYTICS_MONGO_URL)` and stores the client; then opens
the three broker pools in order via `Managers.initPools`.  Any exception
propagates immediately, keeping the assignments already made. -/
def Managers.init (cfg : Config) (env : Env) (self : Managers) (initialize_mongo : Bool) : RunResult :=
  match env.superInitResult with
  | .error e => ⟨[Call.superInit], self, some e⟩
  | .ok _ =>
    if initialize_mongo then
      match env.connectResult cfg.ANALYTICS_MONGO_URL with
      | .error e => ⟨[Call.superInit, Call.connect cfg.ANALYTICS_MONGO_URL], self, some e⟩
      | .ok hm =>
        Managers.initPools cfg env { self with _analytics_mongo := some hm }
          [Call.superInit, Call.connect cfg.ANALYTICS_MONGO_URL]
    else
      Managers.initPools cfg env self [Call.superInit]

/-- One broker-pool block of `teardown`: when the handle is present, call
`close()` and then await `wait_closed()`, propagating the first exception;
when it is absent, do nothing.  Returns the extended trace and the
propagated exception, if any (the state is never modified). -/
def closeRedisStep (env : Env) (h? : Option Nat) (t : List Call) : List Call × Option PyError :=
  match h? with
  | none => (t, none)
  | some h =>
    let t1 := t ++ [Call.redisClose h]
    match env.redisCloseResult h with
    | .error e => (t1, some e)
    | .ok _ =>
      let t2 := t1 ++ [Call.waitClosed h]
      match env.waitClosedResult h with
      | .error e => (t2, some e)
      | .ok _ => (t2, none)

/-- The document-store block of `teardown`: when the handle is present, call
`close()` on the `MongoClient`, propagating its exception; when absent, do
nothing. -/
def closeMongoStep (env : Env) (h? : Option Nat) (t : List Call) : List Call × Option PyError :=
  match h? with
  | none => (t, none)
  | some h =>
    let t1 := t ++ [Call.mongoClose h]
    match env.mongoCloseResult h with
    | .error e => (t1, some e)
    | .ok _ => (t1, none)

/-- The `teardown` method.  It awaits `super().teardown()`; then, for each
of the four handles in source order (document store, analytics broker,
iOS authorization broker, Android authorization broker), closes it if it is
present.  Any exception propagates immediately, skipping the later blocks.
No field is ever reset to `None`. -/
def Managers.teardown (env : Env) (self : Managers) : RunResult :=
  match env.superTeardownResult with
  | .error e => ⟨[Call.superTeardown], self, some e⟩
  | .ok _ =>
    match closeMongoStep env self._analytics_mongo [Call.superTeardown] with
    | (t1, some e) => ⟨t1, self, some e⟩
    | (t1, none) =>
      match closeRedisStep env self._analytics_redis t1 with
      | (t2, some e) => ⟨t2, self, some e⟩
      | (t2, none) =>
        match closeRedisStep env self._authorization_ios_redis t2 with
        | (t3, some e) => ⟨t3, self, some e⟩
        | (t3, none) =>
          match closeRedisStep env self._authorization_android_redis t3 with
          | (t4, e4) => ⟨t4, self, e4⟩

/-- Concrete configuration used by the witness theorems. -/
def testCfg : Config :=
  ⟨"mongodb://db", "redis://analytics", "redis://ios", "redis://android"⟩

/-- A benign environment for the witness theorems: every external call
succeeds, `connect` returns handle 10 and the three pool creations return
handles 11, 12 and 13. -/
def okEnv : Env where
  superInitResult := .ok ()
  connectResult := fun _ => .ok 10
  createRedisPoolResult := fun a _ =>
    if a = "redis://analytics" then .ok 11 else if a = "redis://ios" then .ok 12 else .ok 13
  superTeardownResult := .ok ()
  mongoCloseResult := fun _ => .ok ()
  redisCloseResult := fun _ => .ok ()
  waitClosedResult := fun _ => .ok ()

/-- An environment in which creating the analytics broker pool raises,
while everything before it succeeds. -/
def failPoolEnv : Env where
  superInitResult := .ok ()
  connectResult := fun _ => .ok 10
  createRedisPoolResult := fun a _ =>
    if a = "redis://analytics" then .error (.external "pool boom") else .ok 12
  superTeardownResult := .ok ()
  mongoCloseResult := fun _ => .ok ()
  redisCloseResult := fun _ => .ok ()
  waitClosedResult := fun _ => .ok ()

/-- An environment in which closing the analytics broker pool (handle 11)
raises, while everything before it succeeds. -/
def failCloseEnv : Env where
  superInitResult := .ok ()
  connectResult := fun _ => .ok 10
  createRedisPoolResult := fun _ _ => .ok 11
  superTeardownResult := .ok ()
  mongoCloseResult := fun _ => .ok ()
  redisCloseResult := fun h => if h = 11 then .error (.external "close boom") else .ok ()
  waitClosedResult := fun _ => .ok ()

/-- Helper: when every external call of `initialize` succeeds, the run
performs exactly the five (or four, without the document store) calls in
source order, sets the corresponding fields, and propagates no exception. -/
theorem init_ok_spec (cfg : Config) (env : Env) (s : Managers) (b : Bool)
    (hm h1 h2 h3 : Nat)
    (hsi : env.superInitResult = .ok ())
    (hc : b = true → env.connectResult cfg.ANALYTICS_MONGO_URL = .ok hm)
    (hp1 : env.createRedisPoolResult cfg.ANALYTICS_BROKER_REDIS_URL "utf-8" = .ok h1)
    (hp2 : env.createRedisPoolResult cfg.CELERY_BROKER_REDIS_URL_AUTHORIZATION_IOS "utf-8" = .ok h2)
    (hp3 : env.createRedisPoolResult cfg.CELERY_BROKER_REDIS_URL_AUTHORIZATION_ANDROID "utf-8" = .ok h3) :
    Managers.init cfg env s b =
      ⟨[Call.superInit]
         ++ (if b then [Call.connect cfg.ANALYTICS_MONGO_URL] else [])
         ++ [Call.createRedisPool cfg.ANALYTICS_BROKER_REDIS_URL "utf-8",
             Call.createRedisPool cfg.CELERY_BROKER_REDIS_URL_AUTHORIZATION_IOS "utf-8",
             Call.createRedisPool cfg.CELERY_BROKER_REDIS_URL_AUTHORIZATION_ANDROID "utf-8"],
       ⟨if b then some hm else s._analytics_mongo, some h1, some h2, some h3⟩,
       none⟩ := by
  cases b with
  | false => simp [Managers.init, Managers.initPools, hsi, hp1, hp2, hp3]
  | true => simp [Managers.init, Managers.initPools, hsi, hc rfl, hp1, hp2, hp3]

/-- Helper: when a run of `initialize` propagates no exception, every
external call it made succeeded. -/
theorem init_success_inv (cfg : Config) (env : Env) (s0 : Managers) (b : Bool)
    (hsucc : (Managers.init cfg env s0 b).error = none) :
    env.superInitResult = .ok ()
    ∧ (b = true → ∃ hm, env.connectResult cfg.ANALYTICS_MONGO_URL = .ok hm)
    ∧ (∃ h1, env.createRedisPoolResult cfg.ANALYTICS_BROKER_REDIS_URL "utf-8" = .ok h1)
    ∧ (∃ h2, env.createRedisPoolResult cfg.CELERY_BROKER_REDIS_URL_AUTHORIZATION_IOS "utf-8" = .ok h2)
    ∧ (∃ h3, env.createRedisPoolResult cfg.CELERY_BROKER_REDIS_URL_AUTHORIZATION_ANDROID "utf-8" = .ok h3) := by
  simp only [Managers.init, Managers.initPools] at hsucc
  repeat' split at hsucc
  all_goals simp_all

/-- Helper: `teardown` never modifies the state of the object. -/
theorem teardown_state_eq (env : Env) (s : Managers) :
    (Managers.teardown env s).state = s := by
  unfold Managers.teardown
  repeat' split
  all_goals rfl

/-- Helper: when the base hook and every close succeed, `teardown` closes
exactly the present handles in source order and propagates no exception. -/
theorem teardown_benign_spec (env : Env) (s : Managers)
    (hst : env.superTeardownResult = .ok ())
    (hmc : ∀ h, env.mongoCloseResult h = .ok ())
    (hrc : ∀ h, env.redisCloseResult h = .ok ())
    (hwc : ∀ h, env.waitClosedResult h = .ok ()) :
    Managers.teardown env s =
      ⟨[Call.superTeardown]
         ++ (match s._analytics_mongo with | none => [] | some h => [Call.mongoClose h])
         ++ (match s._analytics_redis with
             | none => [] | some h => [Call.redisClose h, Call.waitClosed h])
         ++ (match s._authorization_ios_redis with
             | none => [] | some h => [Call.redisClose h, Call.waitClosed h])
         ++ (match s._authorization_android_redis with
             | none => [] | some h => [Call.redisClose h, Call.waitClosed h]),
       s, none⟩ := by
  rcases s with ⟨m, r1, r2, r3⟩
  cases m <;> cases r1 <;> cases r2 <;> cases r3 <;>
    simp [Managers.teardown, closeMongoStep, closeRedisStep, hst, hmc, hrc, hwc]

/-- C1: each of the four accessors raises the uninitialized-access
`RuntimeError` when its backing handle is absent (it never returns an
absent value), and returns exactly the backing handle when it is present. -/
theorem accessor_guard (s : Managers) :
    (s._analytics_mongo = none →
      s.analytics_mongo = .error (.runtimeError "Cannot use MongoDB manager before initializing it."))
    ∧ (∀ h, s._analytics_mongo = some h → s.analytics_mongo = .ok h)
    ∧ (s._analytics_redis = none →
      s.analytics_redis = .error (.runtimeError "Attempting to use Analytics redis before initialization"))
    ∧ (∀ h, s._analytics_redis = some h → s.analytics_redis = .ok h)
    ∧ (s._authorization_ios_redis = none →
      s.authorization_ios_redis = .error (.runtimeError "Attempting to use Authorization iOS redis before initialization"))
    ∧ (∀ h, s._authorization_ios_redis = some h → s.authorization_ios_redis = .ok h)
    ∧ (s._authorization_android_redis = none →
      s.authorization_android_redis = .error (.runtimeError "Attempting to use Authorization Android redis before initialization"))
    ∧ (∀ h, s._authorization_android_redis = some h → s.authorization_android_redis = .ok h) := by
  refine ⟨fun h => ?_, fun c h => ?_, fun h => ?_, fun c h => ?_,
    fun h => ?_, fun c h => ?_, fun h => ?_, fun c h => ?_⟩ <;>
    simp [Managers.analytics_mongo, Managers.analytics_redis,
      Managers.authorization_ios_redis, Managers.authorization_android_redis, h]

/-- Witness for C1: before any initialization (the module-level singleton
`managers`), all four accessors raise; on a fully populated state, each
accessor returns its backing handle. -/
theorem accessor_guard_witness :
    managers.analytics_mongo = .error (.runtimeError "Cannot use MongoDB manager before initializing it.")
    ∧ managers.analytics_redis = .error (.runtimeError "Attempting to use Analytics redis before initialization")
    ∧ managers.authorization_ios_redis = .error (.runtimeError "Attempting to use Authorization iOS redis before initialization")
    ∧ managers.authorization_android_redis = .error (.runtimeError "Attempting to use Authorization Android redis before initialization")
    ∧ Managers.analytics_mongo ⟨some 1, some 2, some 3, some 4⟩ = .ok 1
    ∧ Managers.analytics_redis ⟨some 1, some 2, some 3, some 4⟩ = .ok 2
    ∧ Managers.authorization_ios_redis ⟨some 1, some 2, some 3, some 4⟩ = .ok 3
    ∧ Managers.authorization_android_redis ⟨some 1, some 2, some 3, some 4⟩ = .ok 4 :=
  ⟨(accessor_guard managers).1 rfl,
   (accessor_guard managers).2.2.1 rfl,
   (accessor_guard managers).2.2.2.2.1 rfl,
   (accessor_guard managers).2.2.2.2.2.2.1 rfl,
   (accessor_guard ⟨some 1, some 2, some 3, some 4⟩).2.1 1 rfl,
   (accessor_guard ⟨some 1, some 2, some 3, some 4⟩).2.2.2.1 2 rfl,
   (accessor_guard ⟨some 1, some 2, some 3, some 4⟩).2.2.2.2.2.1 3 rfl,
   (accessor_guard ⟨some 1, some 2, some 3, some 4⟩).2.2.2.2.2.2.2 4 rfl⟩

/-- C9: `teardown` never resets any handle field: the state after `teardown`
is identical to the state before it, so a second `teardown` call repeats the
same close attempts on the same handles. -/
theorem teardown_keeps_handles (env : Env) (s : Managers) :
    (Managers.teardown env s).state = s
    ∧ Managers.teardown env (Managers.teardown env s).state = Managers.teardown env s := by
  refine ⟨teardown_state_eq env s, ?_⟩
  rw [teardown_state_eq env s]

/-- Counterexample to C5 as stated: with every external call succeeding,
run the full lifecycle (`init` with the document-store flag true, then
`teardown`); afterwards each accessor returns the stale handle instead of
raising the uninitialized-access error. -/
theorem accessor_after_teardown_cex :
    (Managers.init testCfg okEnv managers true).error = none
    ∧ (Managers.teardown okEnv (Managers.init testCfg okEnv managers true).state).error = none
    ∧ (Managers.teardown okEnv (Managers.init testCfg okEnv managers true).state).state.analytics_mongo = .ok 10
    ∧ (Managers.teardown okEnv (Managers.init testCfg okEnv managers true).state).state.analytics_redis = .ok 11
    ∧ (Managers.teardown okEnv (Managers.init testCfg okEnv managers true).state).state.authorization_ios_redis = .ok 12
    ∧ (Managers.teardown okEnv (Managers.init testCfg okEnv managers true).state).state.authorization_android_redis = .ok 13 := by
  decide

/-- C5 (amended): after `teardown` completes, each accessor behaves exactly
as it did before `teardown` (the fields are not cleared): it raises the
uninitialized-access error precisely when the handle field was already
absent — e.g. when `init` never set it — and otherwise returns the stale
handle. -/
theorem accessor_after_teardown (env : Env) (s : Managers) :
    ((Managers.teardown env s).state.analytics_mongo = s.analytics_mongo
      ∧ (Managers.teardown env s).state.analytics_redis = s.analytics_redis
      ∧ (Managers.teardown env s).state.authorization_ios_redis = s.authorization_ios_redis
      ∧ (Managers.teardown env s).state.authorization_android_redis = s.authorization_android_redis)
    ∧ (s._analytics_mongo = none →
      (Managers.teardown env s).state.analytics_mongo
        = .error (.runtimeError "Cannot use MongoDB manager before initializing it."))
    ∧ (s._analytics_redis = none →
      (Managers.teardown env s).state.analytics_redis
        = .error (.runtimeError "Attempting to use Analytics redis before initialization"))
    ∧ (s._authorization_ios_redis = none →
      (Managers.teardown env s).state.authorization_ios_redis
        = .error (.runtimeError "Attempting to use Authorization iOS redis before initialization"))
    ∧ (s._authorization_android_redis = none →
      (Managers.teardown env s).state.authorization_android_redis
        = .error (.runtimeError "Attempting to use Authorization Android redis before initialization")) := by
  rw [teardown_state_eq env s]
  refine ⟨⟨rfl, rfl, rfl, rfl⟩, fun h => ?_, fun h => ?_, fun h => ?_, fun h => ?_⟩ <;>
    simp [Managers.analytics_mongo, Managers.analytics_redis,
      Managers.authorization_ios_redis, Managers.authorization_android_redis, h]

/-- Witness for C5 (amended): tearing down the never-populated singleton
leaves every accessor raising its uninitialized-access error. -/
theorem accessor_after_teardown_witness :
    (Managers.teardown okEnv managers).state.analytics_mongo
      = .error (.runtimeError "Cannot use MongoDB manager before initializing it.")
    ∧ (Managers.teardown okEnv managers).state.analytics_redis
      = .error (.runtimeError "Attempting to use Analytics redis before initialization") :=
  ⟨(accessor_after_teardown okEnv managers).2.1 rfl,
   (accessor_after_teardown okEnv managers).2.2.1 rfl⟩

/-- C2: starting from the uninitialized singleton, after a successful
`init` run with flag `b`: when `b` is false the document-store accessor
still raises the uninitialized-access error while the three broker
accessors return handles; when `b` is true all four accessors return
handles. -/
theorem init_then_accessors (cfg : Config) (env : Env) (b : Bool) (t : List Call) (s : Managers)
    (hrun : Managers.init cfg env managers b = ⟨t, s, none⟩) :
    (b = false →
      s.analytics_mongo = .error (.runtimeError "Cannot use MongoDB manager before initializing it."))
    ∧ (b = true → ∃ h, s.analytics_mongo = .ok h)
    ∧ (∃ h, s.analytics_redis = .ok h)
    ∧ (∃ h, s.authorization_ios_redis = .ok h)
    ∧ (∃ h, s.authorization_android_redis = .ok h) := by
  have hsucc : (Managers.init cfg env managers b).error = none := by rw [hrun]
  obtain ⟨hsi, hcE, ⟨h1, hp1⟩, ⟨h2, hp2⟩, ⟨h3, hp3⟩⟩ := init_success_inv cfg env managers b hsucc
  cases b with
  | false =>
    rw [init_ok_spec cfg env managers false 0 h1 h2 h3 hsi (by simp) hp1 hp2 hp3] at hrun
    simp only [RunResult.mk.injEq] at hrun
    obtain ⟨-, hs, -⟩ := hrun
    subst hs
    refine ⟨fun _ => ?_, fun hb => ?_, ?_, ?_, ?_⟩
    · simp [Managers.analytics_mongo, managers]
    · simp at hb
    · exact ⟨h1, by simp [Managers.analytics_redis]⟩
    · exact ⟨h2, by simp [Managers.authorization_ios_redis]⟩
    · exact ⟨h3, by simp [Managers.authorization_android_redis]⟩
  | true =>
    obtain ⟨hm, hc⟩ := hcE rfl
    rw [init_ok_spec cfg env managers true hm h1 h2 h3 hsi (fun _ => hc) hp1 hp2 hp3] at hrun
    simp only [RunResult.mk.injEq] at hrun
    obtain ⟨-, hs, -⟩ := hrun
    subst hs
    refine ⟨fun hb => ?_, fun _ => ?_, ?_, ?_, ?_⟩
    · simp at hb
    · exact ⟨hm, by simp [Managers.analytics_mongo]⟩
    · exact ⟨h1, by simp [Managers.analytics_redis]⟩
    · exact ⟨h2, by simp [Managers.authorization_ios_redis]⟩
    · exact ⟨h3, by simp [Managers.authorization_android_redis]⟩

/-- Witness for C2: the concrete benign run with the flag true yields a
state on which the accessors return handles. -/
theorem init_then_accessors_witness :
    (∃ h, Managers.analytics_mongo ⟨some 10, some 11, some 12, some 13⟩ = Except.ok h)
    ∧ (∃ h, Managers.analytics_redis ⟨some 10, some 11, some 12, some 13⟩ = Except.ok h) :=
  let P := init_then_accessors testCfg okEnv true
    [Call.superInit, Call.connect "mongodb://db",
     Call.createRedisPool "redis://analytics" "utf-8",
     Call.createRedisPool "redis://ios" "utf-8",
     Call.createRedisPool "redis://android" "utf-8"]
    ⟨some 10, some 11, some 12, some 13⟩ (by decide)
  ⟨P.2.1 rfl, P.2.2.1⟩

/-- C3: when the analytics broker pool creation raises during `init`, the
exception propagates out, the iOS and Android pool creations are not
attempted (the trace ends at the analytics pool call), and the handles set
by the earlier steps (the document-store client when the flag was true, and
whatever the starting state held) remain set. -/
theorem init_pool_failure (cfg : Config) (env : Env) (s : Managers) (b : Bool)
    (hm : Nat) (e : PyError)
    (hsi : env.superInitResult = .ok ())
    (hc : b = true → env.connectResult cfg.ANALYTICS_MONGO_URL = .ok hm)
    (hp1 : env.createRedisPoolResult cfg.ANALYTICS_BROKER_REDIS_URL "utf-8" = .error e) :
    Managers.init cfg env s b =
      ⟨[Call.superInit] ++ (if b then [Call.connect cfg.ANALYTICS_MONGO_URL] else [])
         ++ [Call.createRedisPool cfg.ANALYTICS_BROKER_REDIS_URL "utf-8"],
       ⟨if b then some hm else s._analytics_mongo, s._analytics_redis,
        s._authorization_ios_redis, s._authorization_android_redis⟩,
       some e⟩ := by
  cases b with
  | false => simp [Managers.init, Managers.initPools, hsi, hp1]
  | true => simp [Managers.init, Managers.initPools, hsi, hc rfl, hp1]

/-- Witness for C3: the concrete run in which the analytics pool creation
raises; the document-store handle is set, the exception propagates, and no
further pool creation appears in the trace. -/
theorem init_pool_failure_witness :
    Managers.init testCfg failPoolEnv managers true =
      ⟨[Call.superInit, Call.connect "mongodb://db",
        Call.createRedisPool "redis://analytics" "utf-8"],
       ⟨some 10, none, none, none⟩, some (.external "pool boom")⟩ := by
  simpa [testCfg, managers] using
    init_pool_failure testCfg failPoolEnv managers true 10 (.external "pool boom")
      rfl (fun _ => rfl) (by decide)

/-- C4: after a successful full `init` (flag true) from the uninitialized
singleton, `teardown` with every close succeeding first performs the base
teardown hook, then closes the document-store client and the three broker
pools in order (close then wait for closure for each pool), and raises no
error. -/
theorem teardown_after_full_init (cfg : Config) (envI envT : Env) (t : List Call) (s : Managers)
    (hrun : Managers.init cfg envI managers true = ⟨t, s, none⟩)
    (hst : envT.superTeardownResult = .ok ())
    (hmc : ∀ h, envT.mongoCloseResult h = .ok ())
    (hrc : ∀ h, envT.redisCloseResult h = .ok ())
    (hwc : ∀ h, envT.waitClosedResult h = .ok ()) :
    ∃ hm h1 h2 h3,
      s = ⟨some hm, some h1, some h2, some h3⟩
      ∧ Managers.teardown envT s =
          ⟨[Call.superTeardown, Call.mongoClose hm,
            Call.redisClose h1, Call.waitClosed h1,
            Call.redisClose h2, Call.waitClosed h2,
            Call.redisClose h3, Call.waitClosed h3], s, none⟩ := by
  have hsucc : (Managers.init cfg envI managers true).error = none := by rw [hrun]
  obtain ⟨hsi, hcE, ⟨h1, hp1⟩, ⟨h2, hp2⟩, ⟨h3, hp3⟩⟩ := init_success_inv cfg envI managers true hsucc
  obtain ⟨hm, hc⟩ := hcE rfl
  rw [init_ok_spec cfg envI managers true hm h1 h2 h3 hsi (fun _ => hc) hp1 hp2 hp3] at hrun
  simp only [RunResult.mk.injEq] at hrun
  obtain ⟨-, hs, -⟩ := hrun
  subst hs
  refine ⟨hm, h1, h2, h3, by simp, ?_⟩
  rw [teardown_benign_spec envT _ hst hmc hrc hwc]
  simp

/-- Witness for C4: the concrete benign full lifecycle closes handles
10, 11, 12 and 13 in order with no error. -/
theorem teardown_after_full_init_witness :
    ∃ hm h1 h2 h3,
      (⟨some 10, some 11, some 12, some 13⟩ : Managers) = ⟨some hm, some h1, some h2, some h3⟩
      ∧ Managers.teardown okEnv ⟨some 10, some 11, some 12, some 13⟩ =
          ⟨[Call.superTeardown, Call.mongoClose hm,
            Call.redisClose h1, Call.waitClosed h1,
            Call.redisClose h2, Call.waitClosed h2,
            Call.redisClose h3, Call.waitClosed h3],
           ⟨some 10, some 11, some 12, some 13⟩, none⟩ :=
  teardown_after_full_init testCfg okEnv okEnv
    [Call.superInit, Call.connect "mongodb://db",
     Call.createRedisPool "redis://analytics" "utf-8",
     Call.createRedisPool "redis://ios" "utf-8",
     Call.createRedisPool "redis://android" "utf-8"]
    ⟨some 10, some 11, some 12, some 13⟩ (by decide)
    rfl (fun _ => rfl) (fun _ => rfl) (fun _ => rfl)

/-- C6: when every external call succeeds, `init` performs exactly the base
hook, then (only when the flag is true) the document-store connect with the
configured document-store URL, then the three pool creations with their
configured URLs, in this fixed sequential order, and propagates no error. -/
theorem init_sequential_fixed_order (cfg : Config) (env : Env) (s : Managers) (b : Bool)
    (hm h1 h2 h3 : Nat)
    (hsi : env.superInitResult = .ok ())
    (hc : b = true → env.connectResult cfg.ANALYTICS_MONGO_URL = .ok hm)
    (hp1 : env.createRedisPoolResult cfg.ANALYTICS_BROKER_REDIS_URL "utf-8" = .ok h1)
    (hp2 : env.createRedisPoolResult cfg.CELERY_BROKER_REDIS_URL_AUTHORIZATION_IOS "utf-8" = .ok h2)
    (hp3 : env.createRedisPoolResult cfg.CELERY_BROKER_REDIS_URL_AUTHORIZATION_ANDROID "utf-8" = .ok h3) :
    (Managers.init cfg env s b).trace =
      [Call.superInit] ++ (if b then [Call.connect cfg.ANALYTICS_MONGO_URL] else [])
        ++ [Call.createRedisPool cfg.ANALYTICS_BROKER_REDIS_URL "utf-8",
            Call.createRedisPool cfg.CELERY_BROKER_REDIS_URL_AUTHORIZATION_IOS "utf-8",
            Call.createRedisPool cfg.CELERY_BROKER_REDIS_URL_AUTHORIZATION_ANDROID "utf-8"]
    ∧ (Managers.init cfg env s b).error = none := by
  rw [init_ok_spec cfg env s b hm h1 h2 h3 hsi hc hp1 hp2 hp3]
  exact ⟨rfl, rfl⟩

/-- Witness for C6: the concrete benign run with the flag true performs the
five calls in the fixed order. -/
theorem init_sequential_fixed_order_witness :
    (Managers.init testCfg okEnv managers true).trace =
      [Call.superInit, Call.connect "mongodb://db",
       Call.createRedisPool "redis://analytics" "utf-8",
       Call.createRedisPool "redis://ios" "utf-8",
       Call.createRedisPool "redis://android" "utf-8"]
    ∧ (Managers.init testCfg okEnv managers true).error = none := by
  simpa [testCfg] using
    init_sequential_fixed_order testCfg okEnv managers true 10 11 12 13
      rfl (fun _ => rfl) (by decide) (by decide) (by decide)

/-- C7: with every close succeeding, `teardown` tolerates any
partially-initialized state: each handle is checked independently, absent
handles are skipped silently, no error is raised, and when the
document-store handle is absent no document-store close appears in the
trace. -/
theorem teardown_partial_tolerant (env : Env) (s : Managers)
    (hst : env.superTeardownResult = .ok ())
    (hmc : ∀ h, env.mongoCloseResult h = .ok ())
    (hrc : ∀ h, env.redisCloseResult h = .ok ())
    (hwc : ∀ h, env.waitClosedResult h = .ok ()) :
    (Managers.teardown env s).error = none
    ∧ (Managers.teardown env s).trace =
        [Call.superTeardown]
          ++ (match s._analytics_mongo with | none => [] | some h => [Call.mongoClose h])
          ++ (match s._analytics_redis with
              | none => [] | some h => [Call.redisClose h, Call.waitClosed h])
          ++ (match s._authorization_ios_redis with
              | none => [] | some h => [Call.redisClose h, Call.waitClosed h])
          ++ (match s._authorization_android_redis with
              | none => [] | some h => [Call.redisClose h, Call.waitClosed h])
    ∧ (s._analytics_mongo = none → ∀ h, Call.mongoClose h ∉ (Managers.teardown env s).trace) := by
  obtain ⟨m, r1, r2, r3⟩ := s
  rw [teardown_benign_spec env ⟨m, r1, r2, r3⟩ hst hmc hrc hwc]
  cases m <;> cases r1 <;> cases r2 <;> cases r3 <;> simp

/-- Witness for C7: tearing down the state produced by `init` with the
document-store flag false closes only the three broker pools, silently
skipping the document store, with no error. -/
theorem teardown_partial_tolerant_witness :
    (Managers.teardown okEnv ⟨none, some 11, some 12, some 13⟩).error = none
    ∧ (Managers.teardown okEnv ⟨none, some 11, some 12, some 13⟩).trace =
        [Call.superTeardown, Call.redisClose 11, Call.waitClosed 11,
         Call.redisClose 12, Call.waitClosed 12, Call.redisClose 13, Call.waitClosed 13]
    ∧ ∀ h, Call.mongoClose h ∉ (Managers.teardown okEnv ⟨none, some 11, some 12, some 13⟩).trace := by
  have P := teardown_partial_tolerant okEnv ⟨none, some 11, some 12, some 13⟩
    rfl (fun _ => rfl) (fun _ => rfl) (fun _ => rfl)
  exact ⟨P.1, by simpa using P.2.1, P.2.2 rfl⟩

/-- C8: on a fully populated state, if one close call during `teardown`
raises, the exception propagates out of `teardown` and none of the closes
later in the fixed sequence (document store, analytics, iOS, Android) are
attempted: the trace stops at the failing call and the state is unchanged. -/
theorem teardown_close_failure (env : Env) (hm h1 h2 h3 : Nat) (e : PyError)
    (hst : env.superTeardownResult = .ok ()) :
    (env.mongoCloseResult hm = .error e →
      Managers.teardown env ⟨some hm, some h1, some h2, some h3⟩ =
        ⟨[Call.superTeardown, Call.mongoClose hm],
         ⟨some hm, some h1, some h2, some h3⟩, some e⟩)
    ∧ (env.mongoCloseResult hm = .ok () → env.redisCloseResult h1 = .error e →
      Managers.teardown env ⟨some hm, some h1, some h2, some h3⟩ =
        ⟨[Call.superTeardown, Call.mongoClose hm, Call.redisClose h1],
         ⟨some hm, some h1, some h2, some h3⟩, some e⟩)
    ∧ (env.mongoCloseResult hm = .ok () → env.redisCloseResult h1 = .ok () →
       env.waitClosedResult h1 = .ok () → env.redisCloseResult h2 = .error e →
      Managers.teardown env ⟨some hm, some h1, some h2, some h3⟩ =
        ⟨[Call.superTeardown, Call.mongoClose hm, Call.redisClose h1, Call.waitClosed h1,
          Call.redisClose h2],
         ⟨some hm, some h1, some h2, some h3⟩, some e⟩)
    ∧ (env.mongoCloseResult hm = .ok () → env.redisCloseResult h1 = .ok () →
       env.waitClosedResult h1 = .ok () → env.redisCloseResult h2 = .ok () →
       env.waitClosedResult h2 = .ok () → env.redisCloseResult h3 = .error e →
      Managers.teardown env ⟨some hm, some h1, some h2, some h3⟩ =
        ⟨[Call.superTeardown, Call.mongoClose hm, Call.redisClose h1, Call.waitClosed h1,
          Call.redisClose h2, Call.waitClosed h2, Call.redisClose h3],
         ⟨some hm, some h1, some h2, some h3⟩, some e⟩) := by
  refine ⟨fun a => ?_, fun a b => ?_, fun a b c d => ?_, fun a b c d f g => ?_⟩ <;>
    simp [Managers.teardown, closeMongoStep, closeRedisStep, hst, *]

/-- Witness for C8: closing the analytics pool (handle 11) raises; the
exception propagates, the iOS and Android pools are not closed, and the
document-store close that already happened stays in the trace. -/
theorem teardown_close_failure_witness :
    Managers.teardown failCloseEnv ⟨some 10, some 11, some 12, some 13⟩ =
      ⟨[Call.superTeardown, Call.mongoClose 10, Call.redisClose 11],
       ⟨some 10, some 11, some 12, some 13⟩, some (.external "close boom")⟩ :=
  (teardown_close_failure failCloseEnv 10 11 12 13 (.external "close boom") rfl).2.1
    rfl (by decide)

/-- C10: for every starting state, a successful `init` run overwrites the
three broker-pool fields with the newly created pools, overwrites the
document-store field only when the flag is true (leaving it unchanged when
false), and performs no close call on any previously stored handle. -/
theorem init_overwrites (cfg : Config) (env : Env) (s : Managers) (b : Bool)
    (hm h1 h2 h3 : Nat)
    (hsi : env.superInitResult = .ok ())
    (hc : b = true → env.connectResult cfg.ANALYTICS_MONGO_URL = .ok hm)
    (hp1 : env.createRedisPoolResult cfg.ANALYTICS_BROKER_REDIS_URL "utf-8" = .ok h1)
    (hp2 : env.createRedisPoolResult cfg.CELERY_BROKER_REDIS_URL_AUTHORIZATION_IOS "utf-8" = .ok h2)
    (hp3 : env.createRedisPoolResult cfg.CELERY_BROKER_REDIS_URL_AUTHORIZATION_ANDROID "utf-8" = .ok h3) :
    (Managers.init cfg env s b).state =
      ⟨if b then some hm else s._analytics_mongo, some h1, some h2, some h3⟩
    ∧ ∀ c ∈ (Managers.init cfg env s b).trace,
        (∀ h, c ≠ Call.mongoClose h) ∧ (∀ h, c ≠ Call.redisClose h)
          ∧ (∀ h, c ≠ Call.waitClosed h) := by
  rw [init_ok_spec cfg env s b hm h1 h2 h3 hsi hc hp1 hp2 hp3]
  refine ⟨rfl, fun c hmem => ?_⟩
  cases b <;> simp at hmem <;>
    rcases hmem with rfl | rfl | rfl | rfl | rfl <;> simp

/-- Witness for C10: running `init` with the flag false on an
already-populated state keeps the old document-store handle, replaces the
three pool handles, and the trace contains no close call. -/
theorem init_overwrites_witness :
    (Managers.init testCfg okEnv ⟨some 1, some 2, some 3, some 4⟩ false).state =
      ⟨some 1, some 11, some 12, some 13⟩
    ∧ ∀ c ∈ (Managers.init testCfg okEnv ⟨some 1, some 2, some 3, some 4⟩ false).trace,
        (∀ h, c ≠ Call.mongoClose h) ∧ (∀ h, c ≠ Call.redisClose h)
          ∧ (∀ h, c ≠ Call.waitClosed h) := by
  have P := init_overwrites testCfg okEnv ⟨some 1, some 2, some 3, some 4⟩ false 0 11 12 13
    rfl (by simp) (by decide) (by decide) (by decide)
  exact ⟨by simpa using P.1, P.2⟩
